import Mathlib

/-!
Verification of the metadata model and conversion operations of the
spss-converter library (src/spss_converter/Metadata.py, read.py, write.py).

The Python code is shallowly embedded: Python values flowing through the
dynamically-typed setters are modelled by the inductive type `PyVal`,
exceptions by `Except PyErr`, and Python dicts by insertion-ordered
association lists.  The generic validation primitives of the external
validator-collection package (an out-of-scope collaborator per the spec) are
modelled from their documented contract: a validator fails with an
empty-value error when the value is empty and `allow_empty` is false, fails
with a coercion error on a value of the wrong type, and passes the value
through otherwise.  String-family validators treat every falsy value as
empty, numeric-family validators only `None`.
-/

namespace SpssConverter

/-- Alignment vocabulary (Metadata.py, `VariableAlignmentEnum`, lines 9-13). -/
inductive VariableAlignmentEnum where
  | unknown
  | left
  | center
  | right
  deriving DecidableEq, Repr

/-- Measure vocabulary (Metadata.py, `VariableMeasureEnum`, lines 16-20). -/
inductive VariableMeasureEnum where
  | unknown
  | nominal
  | ordinal
  | scale
  deriving DecidableEq, Repr

/-- String value of an alignment member (the str-mixin enum's `.value`). -/
def VariableAlignmentEnum.toStr : VariableAlignmentEnum → String
  | .unknown => "unknown"
  | .left => "left"
  | .center => "center"
  | .right => "right"

/-- String value of a measure member. -/
def VariableMeasureEnum.toStr : VariableMeasureEnum → String
  | .unknown => "unknown"
  | .nominal => "nominal"
  | .ordinal => "ordinal"
  | .scale => "scale"

/-- Parse a lowercased string into the alignment vocabulary. -/
def VariableAlignmentEnum.ofStr (s : String) : Option VariableAlignmentEnum :=
  if s = "unknown" then some .unknown
  else if s = "left" then some .left
  else if s = "center" then some .center
  else if s = "right" then some .right
  else none

/-- Parse a lowercased string into the measure vocabulary. -/
def VariableMeasureEnum.ofStr (s : String) : Option VariableMeasureEnum :=
  if s = "unknown" then some .unknown
  else if s = "nominal" then some .nominal
  else if s = "ordinal" then some .ordinal
  else if s = "scale" then some .scale
  else none

/-- One entry of `missing_value_metadata`: a discrete missing-value sentinel,
either an integer or a string (Metadata.py, lines 198-232). -/
inductive MissingVal where
  | int (n : Int)
  | str (s : String)
  deriving DecidableEq, Repr

/-- One entry of `missing_range_metadata`: a validated numeric range with a
`high` and a `low` bound (Metadata.py, lines 189-192).  The library only
checks both bounds are numeric; no ordering between them is enforced. -/
structure MissingRange where
  high : Int
  low : Int
  deriving DecidableEq, Repr

/-- Embedding of `ColumnMetadata` (Metadata.py, lines 23-363).  Each field
holds exactly what the corresponding Python property stores after its setter
ran; `alignment`/`measure` are stored as vocabulary members (the Python code
stores the lowercased string, which compares equal to the str-mixin enum
member of the same value). -/
structure ColumnMetadata where
  name : Option String
  label : Option String
  alignment : VariableAlignmentEnum
  measure : VariableMeasureEnum
  display_width : Option Int
  storage_width : Option Int
  value_metadata : Option (List (String × Option String))
  missing_range_metadata : Option (List MissingRange)
  missing_value_metadata : Option (List MissingVal)
  deriving DecidableEq, Repr

/-- The freshly-constructed `ColumnMetadata()` instance (Metadata.py,
lines 27-36): everything unset, alignment and measure `unknown`. -/
def ColumnMetadata.new : ColumnMetadata :=
  { name := none
    label := none
    alignment := .unknown
    measure := .unknown
    display_width := none
    storage_width := none
    value_metadata := none
    missing_range_metadata := none
    missing_value_metadata := none }

/-- A dynamically-typed Python value as it flows through the setters and
dict representations of this library. -/
inductive PyVal where
  | none
  | str (s : String)
  | int (n : Int)
  | list (xs : List PyVal)
  | dict (kvs : List (String × PyVal))
  | colMeta (c : ColumnMetadata)

/-- Python truthiness of a `PyVal` (`if not value: ...`). -/
def PyVal.isTruthy : PyVal → Bool
  | .none => false
  | .str s => !s.isEmpty
  | .int n => n != 0
  | .list xs => !xs.isEmpty
  | .dict kvs => !kvs.isEmpty
  | .colMeta _ => true

/-- Exceptions raised by the embedded code.  The first group models the
typed errors of the validator-collection contract, the second the library's
own error taxonomy (errors.py), the last the builtin Python exceptions the
source can raise. -/
inductive PyErr where
  | emptyValue
  | cannotCoerce
  | invalidVariableName
  | minimumValue
  | valueError
  | columnNameNotFound
  | invalidDataFormat
  | invalidLayout
  | typeError
  | keyError (k : String)
  | nameError (missing : String)
  | attributeError
  | codecError
  deriving DecidableEq, Repr

/-- Character allowed after the first position of a variable name. -/
def isVarChar (c : Char) : Bool :=
  c.isAlphanum || c = '_'

/-- Identifier shape enforced by the `variable_name` validator: a leading
letter or underscore followed by letters, digits or underscores. -/
def isVariableName (s : String) : Bool :=
  match s.data with
  | [] => false
  | c :: rest => (c.isAlpha || c = '_') && rest.all isVarChar

namespace validators

/-- Contract of `validators.string(value, allow_empty)`: falsy values are
empty (error unless allowed), `None` passes through as `None`, a string is
returned unchanged, anything else cannot be coerced. -/
def string (v : PyVal) (allowEmpty : Bool) : Except PyErr (Option String) :=
  if !v.isTruthy && !allowEmpty then .error .emptyValue
  else
    match v with
    | .none => .ok Option.none
    | .str s => .ok (some s)
    | _ => .error .cannotCoerce

/-- Contract of `validators.integer(value, allow_empty, minimum)`: only
`None` counts as empty; an integer below the minimum is rejected. -/
def integer (v : PyVal) (allowEmpty : Bool) (minimum : Option Int) :
    Except PyErr (Option Int) :=
  match v with
  | .none => if allowEmpty then .ok Option.none else .error .emptyValue
  | .int n =>
    match minimum with
    | some m => if n < m then .error .minimumValue else .ok (some n)
    | Option.none => .ok (some n)
  | _ => .error .cannotCoerce

/-- Contract of `validators.numeric(value, allow_empty)` restricted to the
integral values this development needs. -/
def numeric (v : PyVal) (allowEmpty : Bool) : Except PyErr (Option Int) :=
  integer v allowEmpty Option.none

/-- Contract of `validators.variable_name(value, allow_empty)`: falsy values
are empty (returned as `None` when allowed), a truthy string must match the
identifier shape, anything else cannot be coerced. -/
def variable_name (v : PyVal) (allowEmpty : Bool) :
    Except PyErr (Option String) :=
  if !v.isTruthy then
    if allowEmpty then .ok Option.none else .error .emptyValue
  else
    match v with
    | .str s => if isVariableName s then .ok (some s) else .error .invalidVariableName
    | _ => .error .cannotCoerce

/-- Contract of `validators.dict(value, allow_empty)`: `None` and the empty
dict count as empty, a dict passes through, anything else fails. -/
def dict (v : PyVal) (allowEmpty : Bool) :
    Except PyErr (Option (List (String × PyVal))) :=
  match v with
  | .none => if allowEmpty then .ok Option.none else .error .emptyValue
  | .dict kvs =>
    if kvs.isEmpty && !allowEmpty then .error .emptyValue else .ok (some kvs)
  | _ => .error .cannotCoerce

/-- Contract of `validators.iterable(value, allow_empty)` (strings and bytes
are excluded from the iterable notion by the collaborator's defaults). -/
def iterable (v : PyVal) (allowEmpty : Bool) :
    Except PyErr (Option (List PyVal)) :=
  match v with
  | .none => if allowEmpty then .ok Option.none else .error .emptyValue
  | .list xs =>
    if xs.isEmpty && !allowEmpty then .error .emptyValue else .ok (some xs)
  | _ => .error .cannotCoerce

/-- Contract of `validators.int` as used at Metadata.py line 228: integer
validation of a discrete missing-value sentinel. -/
def int (v : PyVal) (allowEmpty : Bool) : Except PyErr (Option Int) :=
  integer v allowEmpty Option.none

end validators

namespace checkers

/-- Contract of `checkers.is_string`. -/
def is_string : PyVal → Bool
  | .str _ => true
  | _ => false

/-- Contract of `checkers.is_numeric`. -/
def is_numeric : PyVal → Bool
  | .int _ => true
  | _ => false

/-- Contract of `checkers.is_iterable` (strings/bytes excluded by the
collaborator's `forbid_literals` default). -/
def is_iterable : PyVal → Bool
  | .list _ => true
  | _ => false

end checkers

/-- Left-to-right effectful map over a Python list comprehension: the first
raised error aborts the remaining iterations. -/
def exceptMapM {A B : Type} (f : A → Except PyErr B) : List A → Except PyErr (List B)
  | [] => .ok []
  | x :: xs => do
    let y ← f x
    let ys ← exceptMapM f xs
    .ok (y :: ys)

/-- Python `str.lower()` (character-wise ASCII lowering). -/
def pyLower (s : String) : String :=
  String.mk (s.data.map Char.toLower)

/-- Helper of `pySplitLines`: accumulates the current chunk. -/
def splitLinesAux : List Char → List Char → List String
  | [], acc => [String.mk acc.reverse]
  | c :: rest, acc =>
    if c = '\n' then String.mk acc.reverse :: splitLinesAux rest []
    else splitLinesAux rest (c :: acc)

/-- Python `s.split('\n')`: the newline-separated chunks of `s` (always at
least one chunk). -/
def pySplitLines (s : String) : List String :=
  splitLinesAux s.data []

end SpssConverter

namespace SpssConverter

/-- Encoding of an optional string field back into a Python value. -/
def encOptStr : Option String → PyVal
  | Option.none => .none
  | some s => .str s

/-- Encoding of an optional integer field back into a Python value. -/
def encOptInt : Option Int → PyVal
  | Option.none => .none
  | some n => .int n

/-- Encoding of the stored `value_metadata` dict back into a Python value. -/
def encValueMetadata : Option (List (String × Option String)) → PyVal
  | Option.none => .none
  | some l => .dict (l.map (fun kv => (kv.1, encOptStr kv.2)))

/-- A stored missing range as the Python dict the getter exposes. -/
def MissingRange.toPy (r : MissingRange) : PyVal :=
  .dict [("high", .int r.high), ("low", .int r.low)]

/-- Encoding of the stored `missing_range_metadata` list. -/
def encRanges : Option (List MissingRange) → PyVal
  | Option.none => .none
  | some l => .list (l.map MissingRange.toPy)

/-- A stored missing-value sentinel as a Python value. -/
def MissingVal.toPy : MissingVal → PyVal
  | .int n => .int n
  | .str s => .str s

/-- Encoding of the stored `missing_value_metadata` list. -/
def encMissingVals : Option (List MissingVal) → PyVal
  | Option.none => .none
  | some l => .list (l.map MissingVal.toPy)

/-- Membership of a key in a Python dict. -/
def dictContains (d : List (String × PyVal)) (k : String) : Bool :=
  d.any (fun kv => kv.1 == k)

/-- Python `d.get(k)` with default `None`. -/
def dictGet (d : List (String × PyVal)) (k : String) : PyVal :=
  match List.lookup k d with
  | some v => v
  | Option.none => .none

/-- Python `d.pop(k, default)`: the value (or the default when the key is
absent) together with the dict with that key removed. -/
def dictPop (d : List (String × PyVal)) (k : String) (default : PyVal) :
    PyVal × List (String × PyVal) :=
  match List.lookup k d with
  | some v => (v, d.filter (fun kv => kv.1 != k))
  | Option.none => (default, d)

/-- Setter of `ColumnMetadata.name` (Metadata.py, lines 50-52). -/
def ColumnMetadata.setName (c : ColumnMetadata) (v : PyVal) :
    Except PyErr ColumnMetadata := do
  let r ← validators.variable_name v true
  .ok { c with name := r }

/-- Setter of `ColumnMetadata.label` (Metadata.py, lines 62-64). -/
def ColumnMetadata.setLabel (c : ColumnMetadata) (v : PyVal) :
    Except PyErr ColumnMetadata := do
  let r ← validators.string v true
  .ok { c with label := r }

/-- Setter of `ColumnMetadata.alignment` (Metadata.py, lines 79-87): a
non-empty string, lowercased, that must belong to the alignment vocabulary. -/
def ColumnMetadata.setAlignment (c : ColumnMetadata) (v : PyVal) :
    Except PyErr ColumnMetadata := do
  let r ← validators.string v false
  match r with
  | some s =>
    match VariableAlignmentEnum.ofStr (pyLower s) with
    | some a => .ok { c with alignment := a }
    | Option.none => .error .valueError
  | Option.none => .error .cannotCoerce

/-- Setter of `ColumnMetadata.measure` (Metadata.py, lines 100-108). -/
def ColumnMetadata.setMeasure (c : ColumnMetadata) (v : PyVal) :
    Except PyErr ColumnMetadata := do
  let r ← validators.string v false
  match r with
  | some s =>
    match VariableMeasureEnum.ofStr (pyLower s) with
    | some m => .ok { c with measure := m }
    | Option.none => .error .valueError
  | Option.none => .error .cannotCoerce

/-- Setter of `ColumnMetadata.display_width` (Metadata.py, lines 118-123):
a non-negative integer, `allow_empty=False`. -/
def ColumnMetadata.setDisplayWidth (c : ColumnMetadata) (v : PyVal) :
    Except PyErr ColumnMetadata := do
  let r ← validators.integer v false (some 0)
  .ok { c with display_width := r }

/-- Setter of `ColumnMetadata.storage_width` (Metadata.py, lines 133-138). -/
def ColumnMetadata.setStorageWidth (c : ColumnMetadata) (v : PyVal) :
    Except PyErr ColumnMetadata := do
  let r ← validators.integer v false (some 0)
  .ok { c with storage_width := r }

/-- Body of the `value_metadata` re-validation comprehension (Metadata.py,
lines 158-160): each label is validated as an optional string. -/
def validateValueEntry (kv : String × PyVal) :
    Except PyErr (String × Option String) := do
  let lbl ← validators.string kv.2 true
  pure (kv.1, lbl)

/-- Setter of `ColumnMetadata.value_metadata` (Metadata.py, lines 152-160):
an optional dict whose values are re-validated as optional strings; falsy
input stores `None`. -/
def ColumnMetadata.setValueMetadata (c : ColumnMetadata) (v : PyVal) :
    Except PyErr ColumnMetadata := do
  let r ← validators.dict v true
  match r with
  | Option.none => .ok { c with value_metadata := Option.none }
  | some kvs =>
    if kvs.isEmpty then .ok { c with value_metadata := Option.none }
    else do
      let entries ← exceptMapM validateValueEntry kvs
      .ok { c with value_metadata := some entries }

/-- Dict validation of one entry of `missing_range_metadata` (Metadata.py,
line 182): each element of the iterable must be a non-empty dict. -/
def extractRangeDict (x : PyVal) : Except PyErr (List (String × PyVal)) := do
  let d ← validators.dict x false
  match d with
  | some kvs => pure kvs
  | Option.none => .error .cannotCoerce

/-- Validation of one entry of `missing_range_metadata` (Metadata.py,
lines 184-194): the dict must carry a `high` and a `low` key, both numeric. -/
def validateRangeEntry (kvs : List (String × PyVal)) : Except PyErr MissingRange := do
  if !(dictContains kvs "high") || !(dictContains kvs "low") then .error .valueError
  else do
    let hi ← validators.numeric (dictGet kvs "high") false
    let lo ← validators.numeric (dictGet kvs "low") false
    match hi, lo with
    | some h, some l => .ok { high := h, low := l }
    | _, _ => .error .cannotCoerce

/-- Setter of `ColumnMetadata.missing_range_metadata` (Metadata.py,
lines 176-196): an optional iterable of range dicts; falsy input stores
`None`; each entry is dict-validated and then shape-checked. -/
def ColumnMetadata.setMissingRangeMetadata (c : ColumnMetadata) (v : PyVal) :
    Except PyErr ColumnMetadata := do
  let r ← validators.iterable v true
  match r with
  | Option.none => .ok { c with missing_range_metadata := Option.none }
  | some xs =>
    if xs.isEmpty then .ok { c with missing_range_metadata := Option.none }
    else do
      let ranges ← exceptMapM extractRangeDict xs
      let validated ← exceptMapM validateRangeEntry ranges
      .ok { c with missing_range_metadata := some validated }

/-- Validation of one discrete missing-value sentinel (Metadata.py,
lines 224-230): first tried as a non-empty string; on a ValueError or
TypeError the integer validator is tried instead. -/
def validateMissingItem (item : PyVal) : Except PyErr MissingVal :=
  match validators.string item false with
  | .ok (some s) => .ok (.str s)
  | .ok Option.none => .error .cannotCoerce
  | .error _ =>
    match validators.int item false with
    | .ok (some n) => .ok (.int n)
    | .ok Option.none => .error .emptyValue
    | .error e => .error e

/-- Setter of `ColumnMetadata.missing_value_metadata` (Metadata.py,
lines 213-232): any falsy value stores `None`; a bare string or number is
wrapped into a one-element list; every element is then validated as a
string-or-integer sentinel. -/
def ColumnMetadata.setMissingValueMetadata (c : ColumnMetadata) (v : PyVal) :
    Except PyErr ColumnMetadata :=
  if !v.isTruthy then .ok { c with missing_value_metadata := Option.none }
  else do
    let items ← match v with
      | .str s => pure [PyVal.str s]
      | .int n => pure [PyVal.int n]
      | .list xs => pure xs
      | .dict kvs => pure (kvs.map (fun kv => PyVal.str kv.1))
      | _ => Except.error PyErr.typeError
    let validated ← exceptMapM validateMissingItem items
    .ok { c with missing_value_metadata := some validated }

/-- The `dict` representation produced by `ColumnMetadata.to_dict`
(Metadata.py, lines 308-323): the nine fields, in source order. -/
def ColumnMetadata.to_dict (c : ColumnMetadata) : List (String × PyVal) :=
  [("name", encOptStr c.name),
   ("label", encOptStr c.label),
   ("alignment", .str c.alignment.toStr),
   ("measure", .str c.measure.toStr),
   ("display_width", encOptInt c.display_width),
   ("storage_width", encOptInt c.storage_width),
   ("value_metadata", encValueMetadata c.value_metadata),
   ("missing_range_metadata", encRanges c.missing_range_metadata),
   ("missing_value_metadata", encMissingVals c.missing_value_metadata)]

/-- One statement of `ColumnMetadata.from_dict`: the key it pops, the getter
value used as the pop default, and the setter the popped value is assigned
through. -/
structure FieldStep where
  key : String
  current : ColumnMetadata → PyVal
  assign : ColumnMetadata → PyVal → Except PyErr ColumnMetadata

/-- Execution of one `instance.field = as_dict.pop(key, instance.field)`
statement: the pop happens first (mutating the dict), then the setter runs;
a raised setter aborts the remaining statements but the pop stays. -/
def runStep (st : Except PyErr ColumnMetadata × List (String × PyVal))
    (step : FieldStep) : Except PyErr ColumnMetadata × List (String × PyVal) :=
  match st.1 with
  | .error e => (.error e, st.2)
  | .ok c =>
    let pv := dictPop st.2 step.key (step.current c)
    match step.assign c pv.1 with
    | .ok c2 => (.ok c2, pv.2)
    | .error e => (.error e, pv.2)

/-- The nine statements of `ColumnMetadata.from_dict` (Metadata.py,
lines 247-258), in source order. -/
def fieldSteps : List FieldStep :=
  [⟨"name", fun c => encOptStr c.name, ColumnMetadata.setName⟩,
   ⟨"label", fun c => encOptStr c.label, ColumnMetadata.setLabel⟩,
   ⟨"alignment", fun c => .str c.alignment.toStr, ColumnMetadata.setAlignment⟩,
   ⟨"measure", fun c => .str c.measure.toStr, ColumnMetadata.setMeasure⟩,
   ⟨"display_width", fun c => encOptInt c.display_width, ColumnMetadata.setDisplayWidth⟩,
   ⟨"storage_width", fun c => encOptInt c.storage_width, ColumnMetadata.setStorageWidth⟩,
   ⟨"value_metadata", fun c => encValueMetadata c.value_metadata, ColumnMetadata.setValueMetadata⟩,
   ⟨"missing_range_metadata", fun c => encRanges c.missing_range_metadata, ColumnMetadata.setMissingRangeMetadata⟩,
   ⟨"missing_value_metadata", fun c => encMissingVals c.missing_value_metadata, ColumnMetadata.setMissingValueMetadata⟩]

/-- `ColumnMetadata.from_dict(as_dict)` (Metadata.py, lines 234-260): a fresh
instance populated by popping the nine recognized keys in order, defaulting
each to the fresh instance's current field.  The second component is the
state of the caller's dict after the call (the call mutates its argument). -/
def ColumnMetadata.from_dict (d : List (String × PyVal)) :
    Except PyErr ColumnMetadata × List (String × PyVal) :=
  fieldSteps.foldl runStep (.ok ColumnMetadata.new, d)

end SpssConverter

namespace SpssConverter

/-- A native missing-range record as pyreadstat exposes it: a dict with keys
`lo` and `hi` (both always present in codec output). -/
structure NativeRange where
  lo : Int
  hi : Int
  deriving DecidableEq, Repr

/-- Lookup in a native-metadata dict keyed by variable name.  Keys are
`Option String` because Python permits `None` as a key (a `ColumnMetadata`
with an unset name writes under `None`). -/
def mLookup {α : Type} (d : List (Option String × α)) (k : Option String) :
    Option α :=
  List.lookup k d

/-- Python dict assignment `d[k] = v`: replace in place when the key exists,
otherwise append (insertion order preserved). -/
def mSet {α : Type} (d : List (Option String × α)) (k : Option String) (v : α) :
    List (Option String × α) :=
  if d.any (fun kv => kv.1 == k) then
    d.map (fun kv => if kv.1 == k then (k, v) else kv)
  else d ++ [(k, v)]

/-- Embedding of the native `pyreadstat` metadata container, an external
collaborator.  Modelled from the spec: section 6 lists its interface as a
column-name ordered list, per-name mappings for label, alignment, measure,
display width, storage width, value labels, missing ranges (`lo`/`hi`
records) and missing user values, plus scalar `table_name`, `file_label`,
`file_encoding`, `notes` and a number-of-rows field (`number_rows`).
`rows_attr` represents the extra dynamic attribute named `rows` that
`Metadata.to_pyreadstat` assigns on the container object; it is not part of
the native interface, which the spec gives as `number_of_rows`. -/
structure PyreadstatContainer where
  column_names : List (Option String)
  column_labels : List (Option String)
  column_names_to_labels : List (Option String × Option String)
  variable_value_labels : List (Option String × List (String × Option String))
  value_labels : List (Option String × List (String × Option String))
  variable_to_label : List (Option String × Option String)
  missing_ranges : List (Option String × List NativeRange)
  missing_user_values : List (Option String × List MissingVal)
  variable_alignment : List (Option String × String)
  variable_measure : List (Option String × String)
  variable_display_width : List (Option String × Option Int)
  variable_storage_width : List (Option String × Option Int)
  notes : PyVal
  table_name : Option String
  file_label : Option String
  file_encoding : Option String
  number_rows : Int
  rows_attr : Option Int

/-- A freshly constructed native container, `metadata_container()`: every
collection empty, scalars absent, note list empty, zero rows. -/
def metadata_container : PyreadstatContainer :=
  { column_names := []
    column_labels := []
    column_names_to_labels := []
    variable_value_labels := []
    value_labels := []
    variable_to_label := []
    missing_ranges := []
    missing_user_values := []
    variable_alignment := []
    variable_measure := []
    variable_display_width := []
    variable_storage_width := []
    notes := .list []
    table_name := none
    file_label := none
    file_encoding := none
    number_rows := 0
    rows_attr := none }

/-- `ColumnMetadata.from_pyreadstat_metadata(name, as_metadata)`
(Metadata.py, lines 262-306): validates the name, fails with the
column-not-found error when the name is absent from `column_names`, and
otherwise populates every field from the per-name native mappings,
defaulting to the fresh instance's own values. -/
def ColumnMetadata.from_pyreadstat_metadata (name : Option String)
    (meta : PyreadstatContainer) : Except PyErr ColumnMetadata := do
  let nmOpt ← validators.variable_name (encOptStr name) false
  match nmOpt with
  | Option.none => .error .cannotCoerce
  | some nm =>
    if !(meta.column_names.contains (some nm)) then .error .columnNameNotFound
    else do
      let c0 ← ColumnMetadata.new.setName (.str nm)
      let c1 ← c0.setLabel
        (encOptStr ((mLookup meta.column_names_to_labels (some nm)).join))
      let c2 ← c1.setAlignment
        (match mLookup meta.variable_alignment (some nm) with
         | some a => .str a
         | Option.none => .str c1.alignment.toStr)
      let c3 ← c2.setMeasure
        (match mLookup meta.variable_measure (some nm) with
         | some ms => .str ms
         | Option.none => .str c2.measure.toStr)
      let c4 ← c3.setDisplayWidth
        (match mLookup meta.variable_display_width (some nm) with
         | some w => encOptInt w
         | Option.none => encOptInt c3.display_width)
      let c5 ← c4.setStorageWidth
        (match mLookup meta.variable_storage_width (some nm) with
         | some w => encOptInt w
         | Option.none => encOptInt c4.storage_width)
      let c6 ← c5.setValueMetadata
        (match mLookup meta.variable_value_labels (some nm) with
         | some vm => .dict (vm.map (fun kv => (kv.1, encOptStr kv.2)))
         | Option.none => encValueMetadata c5.value_metadata)
      let nativeRanges := (mLookup meta.missing_ranges (some nm)).getD []
      let c7 ← c6.setMissingRangeMetadata
        (.list (nativeRanges.map (fun x =>
          .dict [("low", .int x.lo), ("high", .int x.hi)])))
      let c8 ← c7.setMissingValueMetadata
        (match mLookup meta.missing_user_values (some nm) with
         | some l => .list (l.map MissingVal.toPy)
         | Option.none => .none)
      .ok c8

/-- `ColumnMetadata.add_to_pyreadstat(pyreadstat)` (Metadata.py, lines
325-363): folds this column's fields into a native container, registering
value labels under both the name and the label, translating stored
`low`/`high` ranges back to native `lo`/`hi` records, and appending to (or
overwriting in) the parallel `column_names`/`column_labels` lists. -/
def ColumnMetadata.add_to_pyreadstat (c : ColumnMetadata)
    (p : PyreadstatContainer) : PyreadstatContainer :=
  let p := { p with
    column_names_to_labels := mSet p.column_names_to_labels c.name c.label }
  let p := { p with
    variable_alignment := mSet p.variable_alignment c.name c.alignment.toStr }
  let p := { p with
    variable_measure := mSet p.variable_measure c.name c.measure.toStr }
  let p := { p with
    variable_display_width := mSet p.variable_display_width c.name c.display_width }
  let p := { p with
    variable_storage_width := mSet p.variable_storage_width c.name c.storage_width }
  let p := match c.value_metadata with
    | some vm =>
      { p with
        variable_value_labels := mSet p.variable_value_labels c.name vm,
        value_labels := mSet p.value_labels c.label vm }
    | Option.none => p
  let p := { p with variable_to_label := mSet p.variable_to_label c.name c.label }
  let p := match c.missing_range_metadata with
    | some l =>
      if l.isEmpty then p
      else
        let nr := l.map (fun (r : MissingRange) => NativeRange.mk r.low r.high)
        { p with missing_ranges := mSet p.missing_ranges c.name nr }
    | Option.none => p
  let p := match c.missing_value_metadata with
    | some l =>
      if l.isEmpty then p
      else { p with missing_user_values := mSet p.missing_user_values c.name l }
    | Option.none => p
  if !(p.column_names.contains c.name) then
    { p with
      column_names := p.column_names ++ [c.name],
      column_labels := p.column_labels ++ [c.label] }
  else
    let idx := p.column_names.indexOf c.name
    { p with
      column_names := p.column_names.set idx c.name,
      column_labels := p.column_labels.set idx c.label }

/-- Embedding of `Metadata` (Metadata.py, lines 366-580); fields as stored
by the setters, `rows` defaulting to 0. -/
structure Metadata where
  column_metadata : Option (List (String × ColumnMetadata))
  notes : Option String
  file_encoding : Option String
  rows : Int
  table_name : Option String
  file_label : Option String
  deriving DecidableEq, Repr

/-- The freshly-constructed `Metadata()` instance (lines 370-379). -/
def Metadata.new : Metadata :=
  { column_metadata := none
    notes := none
    file_encoding := none
    rows := 0
    table_name := none
    file_label := none }

/-- Join of a Python string list with newlines (`'\n'.join(value)`); a
non-string element raises TypeError. -/
def joinLines : PyVal → Except PyErr PyVal
  | .list xs => do
    let strs ← exceptMapM (fun x =>
      match x with
      | PyVal.str s => pure s
      | _ => Except.error PyErr.typeError) xs
    pure (PyVal.str (String.intercalate "\n" strs))
  | v => pure v

/-- Setter of `Metadata.notes` (lines 430-434): an iterable is joined with
newlines before string validation. -/
def Metadata.setNotes (m : Metadata) (v : PyVal) : Except PyErr Metadata := do
  let v2 ← if checkers.is_iterable v then joinLines v else pure v
  let r ← validators.string v2 true
  .ok { m with notes := r }

/-- Setter of `Metadata.table_name` (lines 444-446). -/
def Metadata.setTableName (m : Metadata) (v : PyVal) : Except PyErr Metadata := do
  let r ← validators.variable_name v true
  .ok { m with table_name := r }

/-- Setter of `Metadata.file_label` (lines 460-462). -/
def Metadata.setFileLabel (m : Metadata) (v : PyVal) : Except PyErr Metadata := do
  let r ← validators.string v true
  .ok { m with file_label := r }

/-- Setter of `Metadata.file_encoding` (lines 418-420). -/
def Metadata.setFileEncoding (m : Metadata) (v : PyVal) : Except PyErr Metadata := do
  let r ← validators.string v true
  .ok { m with file_encoding := r }

/-- Setter of `Metadata.rows` (lines 483-488): non-negative integer,
`allow_empty=False`. -/
def Metadata.setRows (m : Metadata) (v : PyVal) : Except PyErr Metadata := do
  let r ← validators.integer v false (some 0)
  match r with
  | some n => .ok { m with rows := n }
  | Option.none => .error .emptyValue

/-- The loop body of the `Metadata.column_metadata` setter (lines 400-406).
The source contains a slip at line 406: a non-ColumnMetadata entry is built
from `result[key]` — the dict being accumulated — instead of `value[key]`,
so the lookup raises KeyError for every plain sub-mapping. -/
def buildColumnMetadata :
    List (String × PyVal) → List (String × ColumnMetadata) →
    Except PyErr (List (String × ColumnMetadata))
  | [], acc => .ok acc
  | (k, v) :: rest, acc => do
    let kOpt ← validators.variable_name (.str k) false
    match kOpt with
    | Option.none => .error .cannotCoerce
    | some key =>
      match v with
      | .colMeta c => buildColumnMetadata rest (acc ++ [(key, c)])
      | _ =>
        match List.lookup key acc with
        | Option.none => .error (.keyError key)
        | some _ => .error .attributeError

/-- Setter of `Metadata.column_metadata` (lines 394-408): falsy input stores
`None`; otherwise each key is identifier-validated and each entry processed
by `buildColumnMetadata`. -/
def Metadata.setColumnMetadata (m : Metadata) (v : PyVal) :
    Except PyErr Metadata := do
  let r ← validators.dict v true
  match r with
  | Option.none => .ok { m with column_metadata := Option.none }
  | some kvs =>
    if kvs.isEmpty then .ok { m with column_metadata := Option.none }
    else do
      let result ← buildColumnMetadata kvs []
      .ok { m with column_metadata := some result }

/-- Encoding of the stored `column_metadata` mapping back into a Python
value (entries are `ColumnMetadata` objects, not flattened). -/
def encColumnMetadata : Option (List (String × ColumnMetadata)) → PyVal
  | Option.none => .none
  | some l => .dict (l.map (fun kv => (kv.1, .colMeta kv.2)))

/-- Python `d.get(k, default)` on a String-keyed dict. -/
def getOr (d : List (String × PyVal)) (k : String) (default : PyVal) : PyVal :=
  (List.lookup k d).getD default

/-- `Metadata.from_dict(as_dict)` (lines 490-512): lenient partial-update
construction via `.get` (the argument is not mutated), fields in source
order. -/
def Metadata.from_dict (d : List (String × PyVal)) : Except PyErr Metadata := do
  let m0 := Metadata.new
  let m1 ← m0.setNotes (getOr d "notes" (encOptStr m0.notes))
  let m2 ← m1.setTableName (getOr d "table_name" (encOptStr m1.table_name))
  let m3 ← m2.setFileLabel (getOr d "file_label" (encOptStr m2.file_label))
  let m4 ← m3.setRows (getOr d "rows" (.int m3.rows))
  let m5 ← m4.setFileEncoding (getOr d "file_encoding" (encOptStr m4.file_encoding))
  m5.setColumnMetadata (getOr d "column_metadata" (encColumnMetadata m5.column_metadata))

/-- `Metadata.from_pyreadstat(as_metadata)` (lines 529-557): copies the
scalar fields, then builds one `ColumnMetadata` per native column name (the
source builds the same dict twice; the second comprehension is assigned). -/
def Metadata.from_pyreadstat (n : PyreadstatContainer) : Except PyErr Metadata := do
  let m0 := Metadata.new
  let m1 ← m0.setNotes n.notes
  let m2 ← m1.setTableName (encOptStr n.table_name)
  let m3 ← m2.setFileLabel (encOptStr n.file_label)
  let m4 ← m3.setRows (.int n.number_rows)
  let m5 ← m4.setFileEncoding (encOptStr n.file_encoding)
  let cols ← exceptMapM (fun nm => do
    let c ← ColumnMetadata.from_pyreadstat_metadata nm n
    match nm with
    | some s => pure (s, PyVal.colMeta c)
    | Option.none => Except.error PyErr.emptyValue) n.column_names
  m5.setColumnMetadata (.dict cols)

/-- `Metadata.to_pyreadstat()` (lines 559-580).  Two behaviours of the
source are preserved exactly: `notes = self.notes[0]` takes the first
CHARACTER of a multi-line notes string (`String.take 1`), and the row count
is assigned to the dynamic attribute `rows` (`rows_attr`), not to the native
`number_rows` field; finally `for column in self.column_metadata` raises
TypeError when `column_metadata` is `None`. -/
def Metadata.to_pyreadstat (m : Metadata) : Except PyErr PyreadstatContainer :=
  let p0 := metadata_container
  let p1 := { p0 with
    table_name := m.table_name,
    file_label := m.file_label,
    file_encoding := m.file_encoding }
  let notesVal : Option String :=
    match m.notes with
    | some s =>
      if !s.isEmpty && (pySplitLines s).length > 1 then some (s.take 1) else some s
    | Option.none => Option.none
  let p2 := { p1 with notes := encOptStr notesVal }
  let p3 := { p2 with rows_attr := some m.rows }
  match m.column_metadata with
  | Option.none => .error .typeError
  | some cols => .ok (cols.foldl (fun acc kv => kv.2.add_to_pyreadstat acc) p3)

end SpssConverter

namespace SpssConverter

/-- Shape of the `data` argument of `_read_spss` (read.py, lines 106-110):
a real file path, a bytes object, a BytesIO buffer, or anything else. -/
inductive SourceKind where
  | file
  | bytes
  | byteBuffer
  | other
  deriving DecidableEq, Repr

/-- Filesystem-relevant events of one `_read_spss` call. -/
inductive FsEvent where
  | createTemp
  | codecRead
  | removeTemp
  deriving DecidableEq, Repr

namespace read

/-- Staging discipline of `_read_spss` (read.py, lines 106-161): a non-path
input is staged through a uniquely-named scratch file
(`NamedTemporaryFile(delete=False)`, created on construction) by
`temp_file.write(data)` (line 125), which writes the raw `data` object.
For a bytes input the write succeeds, the codec reads from the scratch
path, and `os.remove` runs only on the line after a successful codec call —
there is no try/finally, so a raising codec skips the removal.  For a
BytesIO input the write itself raises TypeError (a BytesIO is not
bytes-like), before the codec is ever called, and the removal line is never
reached either.  The `codec` argument is the outcome of the external
`pyreadstat.read_sav` call. -/
def readSpssStaging (data : SourceKind) (codec : Except PyErr Unit) :
    Except PyErr Unit × List FsEvent :=
  match data with
  | .other => (.error .invalidDataFormat, [])
  | .file =>
    (match codec with
     | .ok _ => (.ok (), [.codecRead])
     | .error e => (.error e, [.codecRead]))
  | .byteBuffer => (.error .typeError, [.createTemp])
  | .bytes =>
    match codec with
    | .ok _ => (.ok (), [.createTemp, .codecRead, .removeTemp])
    | .error e => (.error e, [.createTemp, .codecRead])

/-- A scratch file was created but never removed. -/
def tempLeaked (trace : List FsEvent) : Bool :=
  trace.contains .createTemp && !(trace.contains .removeTemp)

/-- Layout vocabulary check shared by the layout-accepting operations. -/
def validLayout (layout : String) : Bool :=
  layout == "records" || layout == "table"

/-- Shape of the `target` argument of the text-producing read operations. -/
inductive ReadTarget where
  | none
  | path
  | stringBuffer
  | other
  deriving DecidableEq, Repr

/-- Outcome of the entry gates of an operation: the raised error (if any)
and whether the SPSS source was read before that outcome. -/
structure GateResult where
  outcome : Except PyErr Unit
  sourceRead : Bool

/-- Entry gates of `read.to_json` (read.py, lines 556-575): target-shape
check, then the layout check, then the `_read_spss` call. -/
def to_json (target : ReadTarget) (layout : String) : GateResult :=
  match target with
  | .other => ⟨.error .invalidDataFormat, false⟩
  | _ =>
    if !(validLayout layout) then ⟨.error .invalidLayout, false⟩
    else ⟨.ok (), true⟩

/-- Entry gates of `read.to_yaml` (read.py, lines 700-719): same order as
`to_json`. -/
def to_yaml (target : ReadTarget) (layout : String) : GateResult :=
  match target with
  | .other => ⟨.error .invalidDataFormat, false⟩
  | _ =>
    if !(validLayout layout) then ⟨.error .invalidLayout, false⟩
    else ⟨.ok (), true⟩

/-- Entry gates of `read.to_dict` (read.py, lines 841-862): its own layout
check, then delegation to `to_json` (with no target). -/
def to_dict (layout : String) : GateResult :=
  if !(validLayout layout) then ⟨.error .invalidLayout, false⟩
  else to_json .none layout

end read

namespace write

/-- Entry gate of `write.from_json` (write.py, lines 281-295).  write.py
never imports the `errors` module, so the raise statement for a bad layout
evaluates the unbound name `errors` and raises NameError instead of the
intended InvalidLayoutError; a good layout proceeds to read the JSON
source. -/
def from_json (layout : String) : read.GateResult :=
  if !(read.validLayout layout) then ⟨.error (.nameError "errors"), false⟩
  else ⟨.ok (), true⟩

/-- Entry behaviour of `write.from_yaml` (write.py, lines 359-372): the YAML
source is opened and parsed (`yaml.safe_load`) before `from_json` — and with
it the layout check — ever runs, so the source is read even when the layout
is invalid. -/
def from_yaml (layout : String) : read.GateResult :=
  let delegated := from_json layout
  ⟨delegated.outcome, true⟩

end write

/-- Where the result of a target-accepting operation was written and what
the call returned: one of the caller-supplied destinations, or a fresh
in-memory buffer allocated by the call. -/
inductive Dest where
  | givenPath
  | givenBuffer
  | givenWriter
  | freshBuffer
  deriving DecidableEq, Repr

/-- Destination written to (if any) and value returned (if not None). -/
structure TargetOutcome where
  written : Option Dest
  returned : Option Dest
  deriving DecidableEq, Repr

namespace read

/-- Shape of the `target` argument of `read.to_excel`. -/
inductive ExcelTarget where
  | none
  | path
  | byteBuffer
  | excelWriter
  | other
  deriving DecidableEq, Repr

/-- Target handling of `read.to_excel` (read.py, lines 984-1018): after the
shape check, a falsy target OR a BytesIO target is REPLACED by a freshly
constructed `BytesIO()`; the frame is written to that object and the fresh
buffer is returned.  A caller-supplied BytesIO is therefore never written
and the call returns a different buffer; path and ExcelWriter targets are
written in place with an implicit `None` return. -/
def to_excel (target : ExcelTarget) : Except PyErr TargetOutcome :=
  match target with
  | .other => .error .invalidDataFormat
  | .none => .ok ⟨some .freshBuffer, some .freshBuffer⟩
  | .byteBuffer => .ok ⟨some .freshBuffer, some .freshBuffer⟩
  | .path => .ok ⟨some .givenPath, Option.none⟩
  | .excelWriter => .ok ⟨some .givenWriter, Option.none⟩

/-- Shape of the `target` argument of `write.from_dataframe` and of the
write phase of `read.to_yaml`. -/
inductive WriteTarget where
  | none
  | path
  | byteBuffer
  deriving DecidableEq, Repr

/-- Write phase of `read.to_yaml` (read.py, lines 729-733): with no target
the YAML string is returned; with a target the string is written through a
file opened in BINARY mode (`open(target, 'wb')` followed by a write of a
`str`), which raises TypeError before anything is written. -/
def to_yaml_write (target : WriteTarget) : Except PyErr TargetOutcome :=
  match target with
  | .none => .ok ⟨Option.none, some .freshBuffer⟩
  | _ => .error .typeError

end read

namespace write

/-- Target handling of `write.from_dataframe` (write.py, lines 64-119): a
path target is written by the codec directly with an implicit `None` return;
any other target goes through a scratch file whose bytes are then copied
into the given BytesIO (or a fresh one when the target is None) — and the
function then returns that buffer (`return target`), not None. -/
def from_dataframe (target : read.WriteTarget) : Except PyErr TargetOutcome :=
  match target with
  | .path => .ok ⟨some .givenPath, Option.none⟩
  | .byteBuffer => .ok ⟨some .givenBuffer, some .givenBuffer⟩
  | .none => .ok ⟨some .freshBuffer, some .freshBuffer⟩

end write

end SpssConverter

namespace SpssConverter

@[simp] theorem okBind {E A B : Type} (a : A) (f : A → Except E B) :
    (Except.ok a : Except E A) >>= f = f a := rfl

@[simp] theorem errorBind {E A B : Type} (e : E) (f : A → Except E B) :
    (Except.error e : Except E A) >>= f = Except.error e := rfl

@[simp] theorem purePyEq {E A : Type} (a : A) :
    (pure a : Except E A) = Except.ok a := rfl

/-- A sentinel the validation loop accepts: any integer, or a non-empty
string. -/
def MissingVal.nonemptyStr : MissingVal → Bool
  | .str s => !s.isEmpty
  | .int _ => true

/-- The states of a `ColumnMetadata` reachable through the public setters:
a set name is a valid variable name, widths are non-negative, and the three
collection fields are never stored as empty collections (their setters
normalize falsy input to `None`), with string sentinels non-empty. -/
def ColumnMetadata.valid (c : ColumnMetadata) : Bool :=
  (match c.name with
   | some s => isVariableName s
   | Option.none => true) &&
  (match c.display_width with
   | some w => decide (0 ≤ w)
   | Option.none => true) &&
  (match c.storage_width with
   | some w => decide (0 ≤ w)
   | Option.none => true) &&
  (match c.value_metadata with
   | some l => !l.isEmpty
   | Option.none => true) &&
  (match c.missing_range_metadata with
   | some l => !l.isEmpty
   | Option.none => true) &&
  (match c.missing_value_metadata with
   | some l => !l.isEmpty && l.all MissingVal.nonemptyStr
   | Option.none => true)

theorem isVariableName_not_empty {s : String} (h : isVariableName s = true) :
    s.isEmpty = false := by
  cases he : s.isEmpty with
  | false => rfl
  | true =>
    rw [String.isEmpty_iff] at he
    subst he
    simp [isVariableName] at h

theorem setName_enc (c : ColumnMetadata) (x : Option String)
    (hx : ∀ s, x = some s → isVariableName s = true) :
    c.setName (encOptStr x) = .ok { c with name := x } := by
  cases x with
  | none => rfl
  | some s =>
    have h := hx s rfl
    have hne := isVariableName_not_empty h
    simp [ColumnMetadata.setName, validators.variable_name, encOptStr,
          PyVal.isTruthy, hne, h]

theorem setLabel_enc (c : ColumnMetadata) (x : Option String) :
    c.setLabel (encOptStr x) = .ok { c with label := x } := by
  cases x with
  | none => rfl
  | some s =>
    simp [ColumnMetadata.setLabel, validators.string, encOptStr, PyVal.isTruthy]

theorem setAlignment_toStr (c : ColumnMetadata) (a : VariableAlignmentEnum) :
    c.setAlignment (.str a.toStr) = .ok { c with alignment := a } := by
  cases a <;> rfl

theorem setMeasure_toStr (c : ColumnMetadata) (m : VariableMeasureEnum) :
    c.setMeasure (.str m.toStr) = .ok { c with measure := m } := by
  cases m <;> rfl

theorem setDisplayWidth_int (c : ColumnMetadata) (w : Int) (h : 0 ≤ w) :
    c.setDisplayWidth (.int w) = .ok { c with display_width := some w } := by
  simp [ColumnMetadata.setDisplayWidth, validators.integer,
        show ¬(w < 0) by omega]

theorem setStorageWidth_int (c : ColumnMetadata) (w : Int) (h : 0 ≤ w) :
    c.setStorageWidth (.int w) = .ok { c with storage_width := some w } := by
  simp [ColumnMetadata.setStorageWidth, validators.integer,
        show ¬(w < 0) by omega]

theorem validateValueEntry_enc (k : String) (v : Option String) :
    validateValueEntry (k, encOptStr v) = .ok (k, v) := by
  cases v with
  | none => rfl
  | some s =>
    simp [validateValueEntry, validators.string, encOptStr, PyVal.isTruthy]

theorem mapM_validateValueEntry (l : List (String × Option String)) :
    exceptMapM validateValueEntry (l.map (fun kv => (kv.1, encOptStr kv.2))) =
      Except.ok l := by
  induction l with
  | nil => rfl
  | cons hd tl ih =>
    obtain ⟨k, v⟩ := hd
    simp [exceptMapM, validateValueEntry_enc, ih]

theorem setValueMetadata_enc (c : ColumnMetadata)
    (x : Option (List (String × Option String)))
    (hx : ∀ l, x = some l → l.isEmpty = false) :
    c.setValueMetadata (encValueMetadata x) =
      .ok { c with value_metadata := x } := by
  cases x with
  | none => rfl
  | some l =>
    cases l with
    | nil => simp at hx
    | cons hd tl =>
      have hm := mapM_validateValueEntry (hd :: tl)
      simp only [List.map_cons] at hm
      simp [ColumnMetadata.setValueMetadata, encValueMetadata, validators.dict, hm]

end SpssConverter

namespace SpssConverter

theorem extractRangeDict_toPy (r : MissingRange) :
    extractRangeDict r.toPy =
      .ok [("high", PyVal.int r.high), ("low", PyVal.int r.low)] := rfl

theorem mapM_extractRangeDict (l : List MissingRange) :
    exceptMapM extractRangeDict (l.map MissingRange.toPy) =
      Except.ok (l.map (fun r =>
        [("high", PyVal.int r.high), ("low", PyVal.int r.low)])) := by
  induction l with
  | nil => rfl
  | cons hd tl ih => simp [exceptMapM, extractRangeDict_toPy, ih]

theorem validateRangeEntry_pair (h l : Int) :
    validateRangeEntry [("high", PyVal.int h), ("low", PyVal.int l)] =
      .ok (MissingRange.mk h l) := rfl

theorem mapM_validateRangeEntry (l : List MissingRange) :
    exceptMapM validateRangeEntry (l.map (fun r =>
        [("high", PyVal.int r.high), ("low", PyVal.int r.low)])) =
      Except.ok l := by
  induction l with
  | nil => rfl
  | cons hd tl ih => simp [exceptMapM, validateRangeEntry_pair, ih]

theorem setMissingRangeMetadata_enc (c : ColumnMetadata)
    (x : Option (List MissingRange))
    (hx : ∀ l, x = some l → l.isEmpty = false) :
    c.setMissingRangeMetadata (encRanges x) =
      .ok { c with missing_range_metadata := x } := by
  cases x with
  | none => rfl
  | some l =>
    cases l with
    | nil => simp at hx
    | cons hd tl =>
      have hm := mapM_extractRangeDict (hd :: tl)
      have hv := mapM_validateRangeEntry (hd :: tl)
      simp only [List.map_cons] at hm hv
      simp [ColumnMetadata.setMissingRangeMetadata, encRanges,
            validators.iterable, hm, hv]

theorem validateMissingItem_toPy (v : MissingVal)
    (hv : v.nonemptyStr = true) :
    validateMissingItem v.toPy = .ok v := by
  cases v with
  | int n =>
    cases hn : (n != 0) <;>
      simp [validateMissingItem, MissingVal.toPy, validators.string,
            validators.int, validators.integer, PyVal.isTruthy, hn]
  | str s =>
    simp [MissingVal.nonemptyStr] at hv
    simp [validateMissingItem, MissingVal.toPy, validators.string,
          PyVal.isTruthy, hv]

theorem mapM_validateMissingItem (l : List MissingVal)
    (h : l.all MissingVal.nonemptyStr = true) :
    exceptMapM validateMissingItem (l.map MissingVal.toPy) = Except.ok l := by
  induction l with
  | nil => rfl
  | cons hd tl ih =>
    simp only [List.all_cons, Bool.and_eq_true] at h
    simp [exceptMapM, validateMissingItem_toPy hd h.1, ih h.2]

theorem setMissingValueMetadata_enc (c : ColumnMetadata)
    (x : Option (List MissingVal))
    (hx : ∀ l, x = some l →
      l.isEmpty = false ∧ l.all MissingVal.nonemptyStr = true) :
    c.setMissingValueMetadata (encMissingVals x) =
      .ok { c with missing_value_metadata := x } := by
  cases x with
  | none => rfl
  | some l =>
    cases l with
    | nil => simp at hx
    | cons hd tl =>
      have hall := (hx (hd :: tl) rfl).2
      have hm := mapM_validateMissingItem (hd :: tl) hall
      simp only [List.map_cons] at hm
      simp [ColumnMetadata.setMissingValueMetadata, encMissingVals,
            PyVal.isTruthy, hm]

end SpssConverter

namespace SpssConverter

/-- The nine keys `ColumnMetadata.from_dict` recognizes (and pops). -/
def recognizedKeys : List String :=
  fieldSteps.map FieldStep.key

theorem runSteps_error_fixed (steps : List FieldStep) (e : PyErr)
    (d : List (String × PyVal)) :
    steps.foldl runStep (.error e, d) = (.error e, d) := by
  induction steps with
  | nil => rfl
  | cons st rest ih => simpa [List.foldl, runStep] using ih

theorem lookup_none_keys {k : String} {d : List (String × PyVal)}
    (h : List.lookup k d = Option.none) :
    ∀ kv ∈ d, (kv.1 == k) = false := by
  induction d with
  | nil => simp
  | cons hd tl ih =>
    obtain ⟨k1, v1⟩ := hd
    intro kv hkv
    rw [List.lookup] at h
    cases hbe : (k == k1) with
    | true => rw [hbe] at h; cases h
    | false =>
      rw [hbe] at h
      have hne : ¬(k = k1) := by simpa using hbe
      cases hkv with
      | head => simpa using fun he => hne he.symm
      | tail _ hmem => exact ih h kv hmem

theorem runSteps_ok_dict (steps : List FieldStep) :
    ∀ (c0 : ColumnMetadata) (d : List (String × PyVal)) (c : ColumnMetadata)
      (rest : List (String × PyVal)),
      steps.foldl runStep (.ok c0, d) = (.ok c, rest) →
      rest = d.filter (fun kv => !((steps.map FieldStep.key).contains kv.1)) := by
  induction steps with
  | nil =>
    intro c0 d c rest h
    simp only [List.foldl] at h
    cases h
    simp
  | cons st rest' ih =>
    intro c0 d c rest h
    rw [List.foldl_cons] at h
    simp only [runStep, dictPop] at h
    cases hlk : List.lookup st.key d with
    | some v =>
      rw [hlk] at h
      simp only at h
      cases has : st.assign c0 v with
      | error e =>
        rw [has] at h
        rw [runSteps_error_fixed] at h
        cases h
      | ok c1 =>
        rw [has] at h
        have hrec := ih c1 (d.filter (fun kv => kv.1 != st.key)) c rest h
        rw [hrec, List.filter_filter]
        congr 1
        funext kv
        by_cases hkk : kv.1 = st.key
        · simp [hkk, List.contains_cons]
        · simp [hkk, List.contains_cons]
    | none =>
      rw [hlk] at h
      simp only at h
      cases has : st.assign c0 (st.current c0) with
      | error e =>
        rw [has] at h
        rw [runSteps_error_fixed] at h
        cases h
      | ok c1 =>
        rw [has] at h
        have hrec := ih c1 d c rest h
        rw [hrec]
        refine List.filter_congr ?_
        intro kv hkv
        have hkn : ¬(kv.1 = st.key) := by
          simpa using lookup_none_keys hlk kv hkv
        simp [List.contains_cons, hkn]

end SpssConverter

namespace SpssConverter

theorem setName_validStr (c : ColumnMetadata) (s : String)
    (h : isVariableName s = true) :
    c.setName (.str s) = .ok { c with name := some s } := by
  simp [ColumnMetadata.setName, validators.variable_name, PyVal.isTruthy,
        isVariableName_not_empty h, h]

theorem setAlignment_good (c : ColumnMetadata) (a : String)
    (h1 : a.isEmpty = false) (e : VariableAlignmentEnum)
    (h2 : VariableAlignmentEnum.ofStr (pyLower a) = some e) :
    c.setAlignment (.str a) = .ok { c with alignment := e } := by
  simp [ColumnMetadata.setAlignment, validators.string, PyVal.isTruthy, h1, h2]

theorem setMeasure_good (c : ColumnMetadata) (a : String)
    (h1 : a.isEmpty = false) (e : VariableMeasureEnum)
    (h2 : VariableMeasureEnum.ofStr (pyLower a) = some e) :
    c.setMeasure (.str a) = .ok { c with measure := e } := by
  simp [ColumnMetadata.setMeasure, validators.string, PyVal.isTruthy, h1, h2]

theorem setValueMetadata_encList (c : ColumnMetadata)
    (l : List (String × Option String)) :
    c.setValueMetadata (.dict (l.map (fun kv => (kv.1, encOptStr kv.2)))) =
      .ok { c with value_metadata :=
        if l.isEmpty then Option.none else some l } := by
  cases l with
  | nil => rfl
  | cons hd tl =>
    have hm := mapM_validateValueEntry (hd :: tl)
    simp only [List.map_cons] at hm
    simp [ColumnMetadata.setValueMetadata, validators.dict, hm]

theorem extractRangeDict_native (x : NativeRange) :
    extractRangeDict (.dict [("low", PyVal.int x.lo), ("high", PyVal.int x.hi)]) =
      .ok [("low", PyVal.int x.lo), ("high", PyVal.int x.hi)] := rfl

theorem validateRangeEntry_native (lo hi : Int) :
    validateRangeEntry [("low", PyVal.int lo), ("high", PyVal.int hi)] =
      .ok (MissingRange.mk hi lo) := rfl

theorem mapM_extractRangeDict_native (l : List NativeRange) :
    exceptMapM extractRangeDict (l.map (fun x =>
        PyVal.dict [("low", PyVal.int x.lo), ("high", PyVal.int x.hi)])) =
      Except.ok (l.map (fun x =>
        [("low", PyVal.int x.lo), ("high", PyVal.int x.hi)])) := by
  induction l with
  | nil => rfl
  | cons hd tl ih => simp [exceptMapM, extractRangeDict_native, ih]

theorem mapM_validateRangeEntry_native (l : List NativeRange) :
    exceptMapM validateRangeEntry (l.map (fun x =>
        [("low", PyVal.int x.lo), ("high", PyVal.int x.hi)])) =
      Except.ok (l.map (fun x => MissingRange.mk x.hi x.lo)) := by
  induction l with
  | nil => rfl
  | cons hd tl ih => simp [exceptMapM, validateRangeEntry_native, ih]

theorem setMissingRange_native (c : ColumnMetadata) (l : List NativeRange) :
    c.setMissingRangeMetadata (.list (l.map (fun x =>
        PyVal.dict [("low", PyVal.int x.lo), ("high", PyVal.int x.hi)]))) =
      .ok { c with missing_range_metadata :=
        (if l.isEmpty then Option.none
         else some (l.map (fun x => MissingRange.mk x.hi x.lo))) } := by
  cases l with
  | nil => rfl
  | cons hd tl =>
    have hm := mapM_extractRangeDict_native (hd :: tl)
    have hv := mapM_validateRangeEntry_native (hd :: tl)
    simp only [List.map_cons] at hm hv
    simp [ColumnMetadata.setMissingRangeMetadata, validators.iterable, hm, hv]

theorem setMissingValue_encList (c : ColumnMetadata) (l : List MissingVal)
    (h : l.all MissingVal.nonemptyStr = true) :
    c.setMissingValueMetadata (.list (l.map MissingVal.toPy)) =
      .ok { c with missing_value_metadata :=
        if l.isEmpty then Option.none else some l } := by
  cases l with
  | nil => rfl
  | cons hd tl =>
    have hm := mapM_validateMissingItem (hd :: tl) h
    simp only [List.map_cons] at hm
    simp [ColumnMetadata.setMissingValueMetadata, PyVal.isTruthy, hm]

/-- Well-formedness of the per-column entries a native metadata object can
carry for column `s` (what the external codec emits): alignment and measure
strings that normalize into their vocabularies, display and storage width
entries present and non-negative, and non-empty missing-value sentinels. -/
def PyreadstatContainer.wfColumn (n : PyreadstatContainer) (s : String) : Bool :=
  (match mLookup n.variable_alignment (some s) with
   | some a => !a.isEmpty && (VariableAlignmentEnum.ofStr (pyLower a)).isSome
   | Option.none => true) &&
  (match mLookup n.variable_measure (some s) with
   | some a => !a.isEmpty && (VariableMeasureEnum.ofStr (pyLower a)).isSome
   | Option.none => true) &&
  (match mLookup n.variable_display_width (some s) with
   | some (some w) => decide (0 ≤ w)
   | _ => false) &&
  (match mLookup n.variable_storage_width (some s) with
   | some (some w) => decide (0 ≤ w)
   | _ => false) &&
  (match mLookup n.missing_user_values (some s) with
   | some l => l.all MissingVal.nonemptyStr
   | Option.none => true)

end SpssConverter

namespace SpssConverter

theorem encOptStr_some (s : String) : encOptStr (some s) = .str s := rfl

theorem encOptStr_none : encOptStr Option.none = .none := rfl

theorem encOptInt_some (n : Int) : encOptInt (some n) = .int n := rfl

theorem encOptInt_none : encOptInt Option.none = .none := rfl

theorem encValueMetadata_none : encValueMetadata Option.none = .none := rfl

theorem setValueMetadata_pynone (c : ColumnMetadata) :
    c.setValueMetadata .none = .ok { c with value_metadata := Option.none } := rfl

theorem setMissingValueMetadata_pynone (c : ColumnMetadata) :
    c.setMissingValueMetadata .none =
      .ok { c with missing_value_metadata := Option.none } := rfl

def exceptIsOk {A : Type} : Except PyErr A → Bool
  | .ok _ => true
  | .error _ => false

theorem exceptIsOk_exists {A : Type} {e : Except PyErr A}
    (h : exceptIsOk e = true) : ∃ a, e = .ok a := by
  cases e with
  | ok a => exact ⟨a, rfl⟩
  | error b => cases h

theorem fromPyreadstatMetadata_ok (s : String) (n : PyreadstatContainer)
    (hs : isVariableName s = true) (hwf : n.wfColumn s = true)
    (hmem : n.column_names.contains (some s) = true) :
    exceptIsOk (ColumnMetadata.from_pyreadstat_metadata (some s) n) = true := by
  simp only [PyreadstatContainer.wfColumn, Bool.and_eq_true] at hwf
  obtain ⟨⟨⟨⟨hal, hms⟩, hdw⟩, hsw⟩, hmv⟩ := hwf
  have hmem2 : some s ∈ n.column_names := by simpa using hmem
  obtain ⟨w1, hw1look, hw1pos⟩ :
      ∃ w, mLookup n.variable_display_width (some s) = some (some w) ∧ 0 ≤ w := by
    cases hE : mLookup n.variable_display_width (some s) with
    | none => rw [hE] at hdw; cases hdw
    | some ow =>
      cases ow with
      | none => rw [hE] at hdw; cases hdw
      | some w => rw [hE] at hdw; exact ⟨w, rfl, by simpa using hdw⟩
  obtain ⟨w2, hw2look, hw2pos⟩ :
      ∃ w, mLookup n.variable_storage_width (some s) = some (some w) ∧ 0 ≤ w := by
    cases hE : mLookup n.variable_storage_width (some s) with
    | none => rw [hE] at hsw; cases hsw
    | some ow =>
      cases ow with
      | none => rw [hE] at hsw; cases hsw
      | some w => rw [hE] at hsw; exact ⟨w, rfl, by simpa using hsw⟩
  cases halE : mLookup n.variable_alignment (some s) with
  | some a =>
    rw [halE] at hal
    simp only [Bool.and_eq_true] at hal
    obtain ⟨ha1, ha2⟩ := hal
    obtain ⟨ae, hae⟩ := Option.isSome_iff_exists.mp ha2
    have ha1x : a.isEmpty = false := by simpa using ha1
    cases hmsE : mLookup n.variable_measure (some s) with
    | some b =>
      rw [hmsE] at hms
      simp only [Bool.and_eq_true] at hms
      obtain ⟨hb1, hb2⟩ := hms
      obtain ⟨me, hme⟩ := Option.isSome_iff_exists.mp hb2
      have hb1x : b.isEmpty = false := by simpa using hb1
      cases hvmE : mLookup n.variable_value_labels (some s) with
      | some vm =>
        cases hmvE : mLookup n.missing_user_values (some s) with
        | some muv =>
          rw [hmvE] at hmv
          have hmv2 : muv.all MissingVal.nonemptyStr = true := by simpa using hmv
          simp [exceptIsOk, ColumnMetadata.from_pyreadstat_metadata, validators.variable_name, ColumnMetadata.new,
                      PyVal.isTruthy, isVariableName_not_empty hs, hmem2,
                      encOptStr_some, encOptStr_none, encOptInt_some, encOptInt_none,
                      encValueMetadata_none,
                      setName_validStr, setLabel_enc,
                      setAlignment_good, setAlignment_toStr, setMeasure_good, setMeasure_toStr,
                      setDisplayWidth_int, setStorageWidth_int,
                      setValueMetadata_encList, setMissingRange_native,
                      setMissingValue_encList,
                      setValueMetadata_pynone, setMissingValueMetadata_pynone, *]
        | none =>
          simp [exceptIsOk, ColumnMetadata.from_pyreadstat_metadata, validators.variable_name, ColumnMetadata.new,
                      PyVal.isTruthy, isVariableName_not_empty hs, hmem2,
                      encOptStr_some, encOptStr_none, encOptInt_some, encOptInt_none,
                      encValueMetadata_none,
                      setName_validStr, setLabel_enc,
                      setAlignment_good, setAlignment_toStr, setMeasure_good, setMeasure_toStr,
                      setDisplayWidth_int, setStorageWidth_int,
                      setValueMetadata_encList, setMissingRange_native,
                      setMissingValue_encList,
                      setValueMetadata_pynone, setMissingValueMetadata_pynone, *]
      | none =>
        cases hmvE : mLookup n.missing_user_values (some s) with
        | some muv =>
          rw [hmvE] at hmv
          have hmv2 : muv.all MissingVal.nonemptyStr = true := by simpa using hmv
          simp [exceptIsOk, ColumnMetadata.from_pyreadstat_metadata, validators.variable_name, ColumnMetadata.new,
                      PyVal.isTruthy, isVariableName_not_empty hs, hmem2,
                      encOptStr_some, encOptStr_none, encOptInt_some, encOptInt_none,
                      encValueMetadata_none,
                      setName_validStr, setLabel_enc,
                      setAlignment_good, setAlignment_toStr, setMeasure_good, setMeasure_toStr,
                      setDisplayWidth_int, setStorageWidth_int,
                      setValueMetadata_encList, setMissingRange_native,
                      setMissingValue_encList,
                      setValueMetadata_pynone, setMissingValueMetadata_pynone, *]
        | none =>
          simp [exceptIsOk, ColumnMetadata.from_pyreadstat_metadata, validators.variable_name, ColumnMetadata.new,
                      PyVal.isTruthy, isVariableName_not_empty hs, hmem2,
                      encOptStr_some, encOptStr_none, encOptInt_some, encOptInt_none,
                      encValueMetadata_none,
                      setName_validStr, setLabel_enc,
                      setAlignment_good, setAlignment_toStr, setMeasure_good, setMeasure_toStr,
                      setDisplayWidth_int, setStorageWidth_int,
                      setValueMetadata_encList, setMissingRange_native,
                      setMissingValue_encList,
                      setValueMetadata_pynone, setMissingValueMetadata_pynone, *]
    | none =>
      cases hvmE : mLookup n.variable_value_labels (some s) with
      | some vm =>
        cases hmvE : mLookup n.missing_user_values (some s) with
        | some muv =>
          rw [hmvE] at hmv
          have hmv2 : muv.all MissingVal.nonemptyStr = true := by simpa using hmv
          simp [exceptIsOk, ColumnMetadata.from_pyreadstat_metadata, validators.variable_name, ColumnMetadata.new,
                      PyVal.isTruthy, isVariableName_not_empty hs, hmem2,
                      encOptStr_some, encOptStr_none, encOptInt_some, encOptInt_none,
                      encValueMetadata_none,
                      setName_validStr, setLabel_enc,
                      setAlignment_good, setAlignment_toStr, setMeasure_good, setMeasure_toStr,
                      setDisplayWidth_int, setStorageWidth_int,
                      setValueMetadata_encList, setMissingRange_native,
                      setMissingValue_encList,
                      setValueMetadata_pynone, setMissingValueMetadata_pynone, *]
        | none =>
          simp [exceptIsOk, ColumnMetadata.from_pyreadstat_metadata, validators.variable_name, ColumnMetadata.new,
                      PyVal.isTruthy, isVariableName_not_empty hs, hmem2,
                      encOptStr_some, encOptStr_none, encOptInt_some, encOptInt_none,
                      encValueMetadata_none,
                      setName_validStr, setLabel_enc,
                      setAlignment_good, setAlignment_toStr, setMeasure_good, setMeasure_toStr,
                      setDisplayWidth_int, setStorageWidth_int,
                      setValueMetadata_encList, setMissingRange_native,
                      setMissingValue_encList,
                      setValueMetadata_pynone, setMissingValueMetadata_pynone, *]
      | none =>
        cases hmvE : mLookup n.missing_user_values (some s) with
        | some muv =>
          rw [hmvE] at hmv
          have hmv2 : muv.all MissingVal.nonemptyStr = true := by simpa using hmv
          simp [exceptIsOk, ColumnMetadata.from_pyreadstat_metadata, validators.variable_name, ColumnMetadata.new,
                      PyVal.isTruthy, isVariableName_not_empty hs, hmem2,
                      encOptStr_some, encOptStr_none, encOptInt_some, encOptInt_none,
                      encValueMetadata_none,
                      setName_validStr, setLabel_enc,
                      setAlignment_good, setAlignment_toStr, setMeasure_good, setMeasure_toStr,
                      setDisplayWidth_int, setStorageWidth_int,
                      setValueMetadata_encList, setMissingRange_native,
                      setMissingValue_encList,
                      setValueMetadata_pynone, setMissingValueMetadata_pynone, *]
        | none =>
          simp [exceptIsOk, ColumnMetadata.from_pyreadstat_metadata, validators.variable_name, ColumnMetadata.new,
                      PyVal.isTruthy, isVariableName_not_empty hs, hmem2,
                      encOptStr_some, encOptStr_none, encOptInt_some, encOptInt_none,
                      encValueMetadata_none,
                      setName_validStr, setLabel_enc,
                      setAlignment_good, setAlignment_toStr, setMeasure_good, setMeasure_toStr,
                      setDisplayWidth_int, setStorageWidth_int,
                      setValueMetadata_encList, setMissingRange_native,
                      setMissingValue_encList,
                      setValueMetadata_pynone, setMissingValueMetadata_pynone, *]
  | none =>
    cases hmsE : mLookup n.variable_measure (some s) with
    | some b =>
      rw [hmsE] at hms
      simp only [Bool.and_eq_true] at hms
      obtain ⟨hb1, hb2⟩ := hms
      obtain ⟨me, hme⟩ := Option.isSome_iff_exists.mp hb2
      have hb1x : b.isEmpty = false := by simpa using hb1
      cases hvmE : mLookup n.variable_value_labels (some s) with
      | some vm =>
        cases hmvE : mLookup n.missing_user_values (some s) with
        | some muv =>
          rw [hmvE] at hmv
          have hmv2 : muv.all MissingVal.nonemptyStr = true := by simpa using hmv
          simp [exceptIsOk, ColumnMetadata.from_pyreadstat_metadata, validators.variable_name, ColumnMetadata.new,
                      PyVal.isTruthy, isVariableName_not_empty hs, hmem2,
                      encOptStr_some, encOptStr_none, encOptInt_some, encOptInt_none,
                      encValueMetadata_none,
                      setName_validStr, setLabel_enc,
                      setAlignment_good, setAlignment_toStr, setMeasure_good, setMeasure_toStr,
                      setDisplayWidth_int, setStorageWidth_int,
                      setValueMetadata_encList, setMissingRange_native,
                      setMissingValue_encList,
                      setValueMetadata_pynone, setMissingValueMetadata_pynone, *]
        | none =>
          simp [exceptIsOk, ColumnMetadata.from_pyreadstat_metadata, validators.variable_name, ColumnMetadata.new,
                      PyVal.isTruthy, isVariableName_not_empty hs, hmem2,
                      encOptStr_some, encOptStr_none, encOptInt_some, encOptInt_none,
                      encValueMetadata_none,
                      setName_validStr, setLabel_enc,
                      setAlignment_good, setAlignment_toStr, setMeasure_good, setMeasure_toStr,
                      setDisplayWidth_int, setStorageWidth_int,
                      setValueMetadata_encList, setMissingRange_native,
                      setMissingValue_encList,
                      setValueMetadata_pynone, setMissingValueMetadata_pynone, *]
      | none =>
        cases hmvE : mLookup n.missing_user_values (some s) with
        | some muv =>
          rw [hmvE] at hmv
          have hmv2 : muv.all MissingVal.nonemptyStr = true := by simpa using hmv
          simp [exceptIsOk, ColumnMetadata.from_pyreadstat_metadata, validators.variable_name, ColumnMetadata.new,
                      PyVal.isTruthy, isVariableName_not_empty hs, hmem2,
                      encOptStr_some, encOptStr_none, encOptInt_some, encOptInt_none,
                      encValueMetadata_none,
                      setName_validStr, setLabel_enc,
                      setAlignment_good, setAlignment_toStr, setMeasure_good, setMeasure_toStr,
                      setDisplayWidth_int, setStorageWidth_int,
                      setValueMetadata_encList, setMissingRange_native,
                      setMissingValue_encList,
                      setValueMetadata_pynone, setMissingValueMetadata_pynone, *]
        | none =>
          simp [exceptIsOk, ColumnMetadata.from_pyreadstat_metadata, validators.variable_name, ColumnMetadata.new,
                      PyVal.isTruthy, isVariableName_not_empty hs, hmem2,
                      encOptStr_some, encOptStr_none, encOptInt_some, encOptInt_none,
                      encValueMetadata_none,
                      setName_validStr, setLabel_enc,
                      setAlignment_good, setAlignment_toStr, setMeasure_good, setMeasure_toStr,
                      setDisplayWidth_int, setStorageWidth_int,
                      setValueMetadata_encList, setMissingRange_native,
                      setMissingValue_encList,
                      setValueMetadata_pynone, setMissingValueMetadata_pynone, *]
    | none =>
      cases hvmE : mLookup n.variable_value_labels (some s) with
      | some vm =>
        cases hmvE : mLookup n.missing_user_values (some s) with
        | some muv =>
          rw [hmvE] at hmv
          have hmv2 : muv.all MissingVal.nonemptyStr = true := by simpa using hmv
          simp [exceptIsOk, ColumnMetadata.from_pyreadstat_metadata, validators.variable_name, ColumnMetadata.new,
                      PyVal.isTruthy, isVariableName_not_empty hs, hmem2,
                      encOptStr_some, encOptStr_none, encOptInt_some, encOptInt_none,
                      encValueMetadata_none,
                      setName_validStr, setLabel_enc,
                      setAlignment_good, setAlignment_toStr, setMeasure_good, setMeasure_toStr,
                      setDisplayWidth_int, setStorageWidth_int,
                      setValueMetadata_encList, setMissingRange_native,
                      setMissingValue_encList,
                      setValueMetadata_pynone, setMissingValueMetadata_pynone, *]
        | none =>
          simp [exceptIsOk, ColumnMetadata.from_pyreadstat_metadata, validators.variable_name, ColumnMetadata.new,
                      PyVal.isTruthy, isVariableName_not_empty hs, hmem2,
                      encOptStr_some, encOptStr_none, encOptInt_some, encOptInt_none,
                      encValueMetadata_none,
                      setName_validStr, setLabel_enc,
                      setAlignment_good, setAlignment_toStr, setMeasure_good, setMeasure_toStr,
                      setDisplayWidth_int, setStorageWidth_int,
                      setValueMetadata_encList, setMissingRange_native,
                      setMissingValue_encList,
                      setValueMetadata_pynone, setMissingValueMetadata_pynone, *]
      | none =>
        cases hmvE : mLookup n.missing_user_values (some s) with
        | some muv =>
          rw [hmvE] at hmv
          have hmv2 : muv.all MissingVal.nonemptyStr = true := by simpa using hmv
          simp [exceptIsOk, ColumnMetadata.from_pyreadstat_metadata, validators.variable_name, ColumnMetadata.new,
                      PyVal.isTruthy, isVariableName_not_empty hs, hmem2,
                      encOptStr_some, encOptStr_none, encOptInt_some, encOptInt_none,
                      encValueMetadata_none,
                      setName_validStr, setLabel_enc,
                      setAlignment_good, setAlignment_toStr, setMeasure_good, setMeasure_toStr,
                      setDisplayWidth_int, setStorageWidth_int,
                      setValueMetadata_encList, setMissingRange_native,
                      setMissingValue_encList,
                      setValueMetadata_pynone, setMissingValueMetadata_pynone, *]
        | none =>
          simp [exceptIsOk, ColumnMetadata.from_pyreadstat_metadata, validators.variable_name, ColumnMetadata.new,
                      PyVal.isTruthy, isVariableName_not_empty hs, hmem2,
                      encOptStr_some, encOptStr_none, encOptInt_some, encOptInt_none,
                      encValueMetadata_none,
                      setName_validStr, setLabel_enc,
                      setAlignment_good, setAlignment_toStr, setMeasure_good, setMeasure_toStr,
                      setDisplayWidth_int, setStorageWidth_int,
                      setValueMetadata_encList, setMissingRange_native,
                      setMissingValue_encList,
                      setValueMetadata_pynone, setMissingValueMetadata_pynone, *]

end SpssConverter

namespace SpssConverter

theorem C8_helper_absent (s : String) (n : PyreadstatContainer)
    (hs : isVariableName s = true)
    (hmem : n.column_names.contains (some s) = false) :
    ColumnMetadata.from_pyreadstat_metadata (some s) n =
      .error .columnNameNotFound := by
  have hmem2 : ¬(some s ∈ n.column_names) := by simpa using hmem
  simp [ColumnMetadata.from_pyreadstat_metadata, validators.variable_name,
        PyVal.isTruthy, isVariableName_not_empty hs, hs, encOptStr_some, hmem2]

/-- C8 — `ColumnMetadata.from_pyreadstat_metadata(name, as_metadata)`
raises the ColumnNameNotFound error exactly when the (valid) variable name
is absent from the native metadata's `column_names` collection; when the
name is present (and the native per-column entries are well formed, as the
codec emits them), the call returns a `ColumnMetadata` instance. -/
theorem C8_column_name_gate (s : String) (n : PyreadstatContainer)
    (hs : isVariableName s = true) (hwf : n.wfColumn s = true) :
    ((ColumnMetadata.from_pyreadstat_metadata (some s) n =
        .error .columnNameNotFound) ↔
      n.column_names.contains (some s) = false) ∧
    (n.column_names.contains (some s) = true →
      ∃ c, ColumnMetadata.from_pyreadstat_metadata (some s) n = .ok c) := by
  cases hmem : n.column_names.contains (some s) with
  | false =>
    refine ⟨⟨fun _ => rfl, fun _ => C8_helper_absent s n hs hmem⟩, fun hc => ?_⟩
    cases hc
  | true =>
    have hok := exceptIsOk_exists (fromPyreadstatMetadata_ok s n hs hwf hmem)
    refine ⟨⟨fun hres => ?_, fun hfalse => ?_⟩, fun _ => hok⟩
    · obtain ⟨c, hc⟩ := hok
      rw [hc] at hres
      cases hres
    · cases hfalse

/-- A concrete native metadata object with one well-formed column `age` and
five data rows, as the codec would emit it. -/
def nAge : PyreadstatContainer :=
  { metadata_container with
    column_names := [some "age"]
    column_labels := [some "Age in years"]
    column_names_to_labels := [(some "age", some "Age in years")]
    variable_alignment := [(some "age", "right")]
    variable_measure := [(some "age", "scale")]
    variable_display_width := [(some "age", some 8)]
    variable_storage_width := [(some "age", some 8)]
    number_rows := 5 }

/-- C8 witness — the gate theorem applied at the concrete column `age` of
`nAge` with every hypothesis discharged. -/
theorem C8_column_name_gate_witness :
    isVariableName "age" = true ∧ nAge.wfColumn "age" = true ∧
    (((ColumnMetadata.from_pyreadstat_metadata (some "age") nAge =
        .error .columnNameNotFound) ↔
      nAge.column_names.contains (some "age") = false) ∧
    (nAge.column_names.contains (some "age") = true →
      ∃ c, ColumnMetadata.from_pyreadstat_metadata (some "age") nAge = .ok c)) :=
  ⟨by decide, by decide, C8_column_name_gate "age" nAge (by decide) (by decide)⟩

end SpssConverter

namespace SpssConverter

/-- A minimal valid column used to let `Metadata.to_pyreadstat` complete its
column loop. -/
def cX : ColumnMetadata :=
  { ColumnMetadata.new with
    name := some "x"
    display_width := some 1
    storage_width := some 1 }

/-- A `Metadata` whose notes hold two newline-joined lines. -/
def mNotesMultiline : Metadata :=
  { Metadata.new with
    notes := some "line1\nline2"
    column_metadata := some [("x", cX)] }

/-- C1 — evaluation at the failing input: for notes `"line1\nline2"`,
`Metadata.to_pyreadstat` stores the native notes value `"l"` — the first
CHARACTER of the notes string (the code indexes `self.notes[0]` instead of
the first element of the split), not the first line `"line1"` the spec
describes. -/
theorem C1_to_pyreadstat_notes_first_char_evaluation :
    (Metadata.to_pyreadstat mNotesMultiline).map PyreadstatContainer.notes =
      .ok (.str "l") := rfl

/-- C2 counterexample — the claim includes the instance left at its
construction defaults, but `from_dict(to_dict(ColumnMetadata()))` raises:
the default `display_width` is `None` and its setter forbids empty values,
so the round-trip does not even succeed. -/
theorem C2_roundtrip_default_counterexample :
    (ColumnMetadata.from_dict ColumnMetadata.new.to_dict).1 =
      .error .emptyValue := rfl

/-- C2 (amended) — the nine-field round-trip identity
`from_dict(c.to_dict()) == c` holds for every setter-reachable
`ColumnMetadata` whose `display_width` and `storage_width` are set (and the
argument dict is consumed in full). -/
theorem C2_roundtrip_amended (c : ColumnMetadata) (hv : c.valid = true)
    (hdw : c.display_width ≠ Option.none) (hsw : c.storage_width ≠ Option.none) :
    ColumnMetadata.from_dict c.to_dict = (.ok c, []) := by
  obtain ⟨nm, lb, al, ms, dw, sw, vm, mr, mv⟩ := c
  simp only [ColumnMetadata.valid, Bool.and_eq_true] at hv
  obtain ⟨⟨⟨⟨⟨h1, h2⟩, h3⟩, h4⟩, h5⟩, h6⟩ := hv
  obtain ⟨w1, rfl⟩ := Option.ne_none_iff_exists'.mp hdw
  obtain ⟨w2, rfl⟩ := Option.ne_none_iff_exists'.mp hsw
  have hn : ∀ s, nm = some s → isVariableName s = true := by
    intro s hs
    subst hs
    simpa using h1
  have hw1 : (0 : Int) ≤ w1 := by simpa using h2
  have hw2 : (0 : Int) ≤ w2 := by simpa using h3
  have hvm : ∀ l, vm = some l → l.isEmpty = false := by
    intro l hl
    subst hl
    simpa using h4
  have hmr : ∀ l, mr = some l → l.isEmpty = false := by
    intro l hl
    subst hl
    simpa using h5
  have hmv : ∀ l, mv = some l →
      l.isEmpty = false ∧ l.all MissingVal.nonemptyStr = true := by
    intro l hl
    subst hl
    simpa using h6
  simp [ColumnMetadata.from_dict, fieldSteps, ColumnMetadata.to_dict, List.foldl,
        runStep, dictPop, List.lookup, List.filter, encOptInt, ColumnMetadata.new,
        setName_enc _ _ hn, setLabel_enc, setAlignment_toStr,
        setMeasure_toStr, setDisplayWidth_int _ _ hw1, setStorageWidth_int _ _ hw2,
        setValueMetadata_enc _ _ hvm, setMissingRangeMetadata_enc _ _ hmr,
        setMissingValueMetadata_enc _ _ hmv]

/-- A fully-populated valid column for the round-trip witness. -/
def cRound : ColumnMetadata :=
  { name := some "age"
    label := some "Age in years"
    alignment := .right
    measure := .scale
    display_width := some 8
    storage_width := some 8
    value_metadata := some [("1", some "Yes"), ("0", some "No")]
    missing_range_metadata := some [MissingRange.mk 9 0]
    missing_value_metadata := some [.int 99, .str "NA"] }

/-- C2 witness — the amended round trip at a concrete fully-populated
instance, every hypothesis discharged by evaluation. -/
theorem C2_roundtrip_amended_witness :
    cRound.valid = true ∧ cRound.display_width ≠ Option.none ∧
    cRound.storage_width ≠ Option.none ∧
    ColumnMetadata.from_dict cRound.to_dict = (.ok cRound, []) :=
  ⟨by decide, by decide, by decide,
    C2_roundtrip_amended cRound (by decide) (by decide) (by decide)⟩

/-- C3 — evaluation at the failing inputs.  First: for a native object with
no columns (a fresh `metadata_container()`), `from_pyreadstat` succeeds but
`to_pyreadstat` raises TypeError, because `column_metadata` was normalized
to `None` and the code iterates it unguarded — the claim requires the
omitted-columns case not to crash.  Second: for a native object with five
rows, the round-tripped container carries the row count only on the dynamic
`rows` attribute while the native `number_rows` field stays 0 — the row
count the native representation holds is not reproduced. -/
theorem C3_native_roundtrip_evaluation :
    ((Metadata.from_pyreadstat metadata_container).bind Metadata.to_pyreadstat =
      .error .typeError) ∧
    (((Metadata.from_pyreadstat nAge).bind Metadata.to_pyreadstat).map
        (fun p => (p.number_rows, p.rows_attr)) = .ok (0, some 5)) :=
  ⟨rfl, rfl⟩

end SpssConverter

namespace SpssConverter

/-- C4 — evaluation at the failing input: `write.from_json` with an invalid
layout raises NameError (write.py never imports `errors`) instead of the
InvalidLayout error, and `write.from_yaml` parses its YAML source before the
layout check runs; the read-side operations (`to_json`, `to_yaml`,
`to_dict`) do raise InvalidLayout before any read. -/
theorem C4_layout_gate_evaluation :
    write.from_json "bogus" = ⟨.error (.nameError "errors"), false⟩ ∧
    write.from_yaml "bogus" = ⟨.error (.nameError "errors"), true⟩ ∧
    read.to_json .none "bogus" = ⟨.error .invalidLayout, false⟩ ∧
    read.to_yaml .none "bogus" = ⟨.error .invalidLayout, false⟩ ∧
    read.to_dict "bogus" = ⟨.error .invalidLayout, false⟩ :=
  ⟨rfl, rfl, rfl, rfl, rfl⟩

/-- C5 counterexample — for a bytes input whose codec call raises, the
scratch file is created but never removed: the trace carries no removal
event and the leak predicate holds, refuting deletion on every path. -/
theorem C5_temp_leak_counterexample :
    read.readSpssStaging .bytes (.error .codecError) =
      (.error .codecError, [.createTemp, .codecRead]) ∧
    read.tempLeaked
      (read.readSpssStaging .bytes (.error .codecError)).2 = true :=
  ⟨rfl, rfl⟩

/-- C5 (amended) — for a bytes input the scratch file is removed exactly
when the codec call succeeds and leaked when it raises; for a BytesIO input
the staging write itself raises TypeError before the codec is ever called,
and the scratch file is always leaked. -/
theorem C5_cleanup_amended (codec : Except PyErr Unit) :
    (read.tempLeaked (read.readSpssStaging .bytes codec).2 =
      !(exceptIsOk codec)) ∧
    (read.readSpssStaging .byteBuffer codec =
      (.error .typeError, [.createTemp])) ∧
    (read.tempLeaked (read.readSpssStaging .byteBuffer codec).2 = true) := by
  cases codec <;> exact ⟨rfl, rfl, rfl⟩

/-- C6 counterexample — `to_excel` with a BytesIO target writes a freshly
allocated buffer (not the caller's) and returns it instead of None;
`from_dataframe` with a BytesIO target does write the caller's buffer but
returns it instead of None; `to_yaml` with a path target raises TypeError
(a str written through a binary-mode file) instead of writing. -/
theorem C6_target_counterexample :
    read.to_excel .byteBuffer = .ok ⟨some .freshBuffer, some .freshBuffer⟩ ∧
    write.from_dataframe .byteBuffer =
      .ok ⟨some .givenBuffer, some .givenBuffer⟩ ∧
    read.to_yaml_write .path = .error .typeError :=
  ⟨rfl, rfl, rfl⟩

/-- C6 (amended) — actual target behaviour of the three sourced operations:
`to_excel` honours the return-nothing contract only for path and
ExcelWriter targets, replaces a BytesIO target by a fresh buffer and
returns it; `from_dataframe` writes path targets returning None but
returns the buffer it wrote for BytesIO (and a fresh buffer for None);
`to_yaml` returns the in-memory string for None and raises TypeError for a
path target. -/
theorem C6_target_amended :
    (read.to_excel .none = .ok ⟨some .freshBuffer, some .freshBuffer⟩ ∧
     read.to_excel .path = .ok ⟨some .givenPath, Option.none⟩ ∧
     read.to_excel .excelWriter = .ok ⟨some .givenWriter, Option.none⟩ ∧
     read.to_excel .byteBuffer = .ok ⟨some .freshBuffer, some .freshBuffer⟩ ∧
     read.to_excel .other = .error .invalidDataFormat) ∧
    (write.from_dataframe .none = .ok ⟨some .freshBuffer, some .freshBuffer⟩ ∧
     write.from_dataframe .path = .ok ⟨some .givenPath, Option.none⟩ ∧
     write.from_dataframe .byteBuffer =
       .ok ⟨some .givenBuffer, some .givenBuffer⟩) ∧
    (read.to_yaml_write .none = .ok ⟨Option.none, some .freshBuffer⟩ ∧
     read.to_yaml_write .path = .error .typeError) :=
  ⟨⟨rfl, rfl, rfl, rfl, rfl⟩, ⟨rfl, rfl, rfl⟩, ⟨rfl, rfl⟩⟩

/-- A mapping whose `column_metadata` entry holds one plain sub-mapping. -/
def dC7 : List (String × PyVal) :=
  [("column_metadata", .dict [("var1", .dict
      [("name", .str "var1"),
       ("display_width", .int 2),
       ("storage_width", .int 2)])])]

/-- C7 — evaluation at the failing input: a plain (non-ColumnMetadata)
sub-mapping makes `Metadata.from_dict` raise KeyError for its own key,
because the setter builds the entry from `result[key]` (the dict being
accumulated) instead of `value[key]`; an entry that already is a
ColumnMetadata instance is stored unchanged. -/
theorem C7_column_metadata_keyerror_evaluation :
    Metadata.from_dict dC7 = .error (.keyError "var1") ∧
    Metadata.from_dict [("column_metadata", .dict [("var1", .colMeta cX)])] =
      .ok { Metadata.new with column_metadata := some [("var1", cX)] } :=
  ⟨rfl, rfl⟩

/-- A column holding a previous missing-value list, to make the overwrite
by `None` observable. -/
def cMissing : ColumnMetadata :=
  { ColumnMetadata.new with missing_value_metadata := some [.str "x"] }

/-- C9 counterexample — assigning the number 0 or the empty string to
`missing_value_metadata` stores `None` (the setter's falsy test), not the
one-element sequence the claim requires. -/
theorem C9_falsy_scalar_counterexample :
    cMissing.setMissingValueMetadata (.int 0) =
      .ok { cMissing with missing_value_metadata := Option.none } ∧
    cMissing.setMissingValueMetadata (.str "") =
      .ok { cMissing with missing_value_metadata := Option.none } :=
  ⟨rfl, rfl⟩

/-- C9 (amended) — a TRUTHY bare scalar (non-empty string, non-zero number)
is normalized into a one-element sequence; every falsy value — `None`, the
number 0, the empty string, an empty sequence — stores `None` (absent). -/
theorem C9_scalar_normalization_amended (c : ColumnMetadata) (s : String)
    (n : Int) :
    (s ≠ "" → c.setMissingValueMetadata (.str s) =
      .ok { c with missing_value_metadata := some [.str s] }) ∧
    (n ≠ 0 → c.setMissingValueMetadata (.int n) =
      .ok { c with missing_value_metadata := some [.int n] }) ∧
    (c.setMissingValueMetadata .none =
      .ok { c with missing_value_metadata := Option.none }) ∧
    (c.setMissingValueMetadata (.int 0) =
      .ok { c with missing_value_metadata := Option.none }) ∧
    (c.setMissingValueMetadata (.str "") =
      .ok { c with missing_value_metadata := Option.none }) ∧
    (c.setMissingValueMetadata (.list []) =
      .ok { c with missing_value_metadata := Option.none }) := by
  refine ⟨?_, ?_, rfl, rfl, rfl, rfl⟩
  · intro hs
    have hse : s.isEmpty = false := by
      cases he : s.isEmpty with
      | false => rfl
      | true =>
        rw [String.isEmpty_iff] at he
        exact absurd he hs
    simp [ColumnMetadata.setMissingValueMetadata, PyVal.isTruthy, hse,
          exceptMapM, validateMissingItem, validators.string]
  · intro hn
    have hne : (n != 0) = true := by simpa using hn
    simp [ColumnMetadata.setMissingValueMetadata, PyVal.isTruthy, hne,
          exceptMapM, validateMissingItem, validators.string,
          validators.int, validators.integer]

/-- C9 witness — the amended statement applied at concrete truthy scalars. -/
theorem C9_scalar_normalization_amended_witness :
    ColumnMetadata.new.setMissingValueMetadata (.str "NA") =
      .ok { ColumnMetadata.new with
            missing_value_metadata := some [.str "NA"] } ∧
    ColumnMetadata.new.setMissingValueMetadata (.int 7) =
      .ok { ColumnMetadata.new with
            missing_value_metadata := some [.int 7] } :=
  ⟨(C9_scalar_normalization_amended ColumnMetadata.new "NA" 7).1 (by decide),
   (C9_scalar_normalization_amended ColumnMetadata.new "NA" 7).2.1 (by decide)⟩

/-- A mapping triggering the setter failure at `display_width` (key absent,
default `None`) with a later recognized key still unpopped. -/
def dC10 : List (String × PyVal) :=
  [("name", .str "x"), ("missing_value_metadata", .list [.int 1])]

/-- C10 counterexample — `from_dict` aborts at the `display_width`
statement, and the recognized key `missing_value_metadata`, though present
in the argument, is still in the caller's dict afterwards: the claimed
removal of every present recognized key fails for this mapping. -/
theorem C10_mutation_counterexample :
    ColumnMetadata.from_dict dC10 =
      (.error .emptyValue, [("missing_value_metadata", .list [.int 1])]) := rfl

/-- C10 (amended) — whenever `from_dict` returns normally, the caller's
dict has lost exactly the nine recognized keys: what remains is the
argument filtered to its unrecognized bindings (order and values intact). -/
theorem C10_mutation_amended (d : List (String × PyVal)) (c : ColumnMetadata)
    (rest : List (String × PyVal))
    (h : ColumnMetadata.from_dict d = (.ok c, rest)) :
    rest = d.filter (fun kv => !(recognizedKeys.contains kv.1)) :=
  runSteps_ok_dict fieldSteps ColumnMetadata.new d c rest h

/-- The witness dict: an unrecognized binding ahead of all nine recognized
keys. -/
def dW : List (String × PyVal) :=
  ("extra", .int 3) :: cRound.to_dict

/-- C10 witness — the amended statement at a concrete dict: the call
succeeds, only the unrecognized binding survives, and it equals the
filtered input. -/
theorem C10_mutation_amended_witness :
    ColumnMetadata.from_dict dW = (.ok cRound, [("extra", PyVal.int 3)]) ∧
    [("extra", PyVal.int 3)] =
      dW.filter (fun kv => !(recognizedKeys.contains kv.1)) :=
  ⟨rfl, C10_mutation_amended dW cRound [("extra", PyVal.int 3)] rfl⟩

end SpssConverter
